import Mathlib

/-!
# pkg/iostreams: terminal detection, overrides and terminal width

A shallow embedding of `pkg/iostreams/iostreams.go`.

* An `IOStreams` value is a record with the same fields as the Go struct; the
  setters are functions returning the updated record.
* The calls the package makes into the operating system and into libraries
  (`isatty`, `terminal.GetSize`, `exec`, `os.Getenv`, `colorable`, `strconv`,
  `strings`, `runtime.GOOS`) are answered by a `World` record, so every theorem
  quantifies over whatever those calls would answer.
* Every function that may call out returns a `Traced` result: the value
  together with the list of external calls made, in order.
-/

namespace iostreams

/-! ## Data model -/

/-- Go `error` value: `none` is `nil`, `some msg` is a non-nil error. -/
abbrev GoError := Option String

/-- An `*os.File`, known to this package only through what `Fd()` returns
(a `uintptr`). -/
structure OsFile where
  Fd : Nat
deriving DecidableEq, Repr

/-- The dynamic type of the value held in an `io.ReadCloser` / `io.Writer`
field. The package inspects it only through the type assertions
`.(*os.File)` and `.(*colorableWriter)`. The declaration of `colorableWriter`
is not part of `iostreams.go`; it is kept as a handle kind of its own. -/
inductive Handle
  /-- the handle is an `*os.File` -/
  | osFile (f : OsFile)
  /-- the handle is a `*colorableWriter` -/
  | colorableWriter
  /-- the handle is a `*bytes.Buffer`; `id` tells buffers apart -/
  | bytesBuffer (id : Nat)
  /-- the handle is `ioutil.NopCloser(r)` for the buffer `id` -/
  | nopCloser (id : Nat)
  /-- any other dynamic type, and the nil interface -/
  | other (tag : Nat)
deriving DecidableEq, Repr

/-- The Go struct `IOStreams`. -/
structure IOStreams where
  In : Handle
  Out : Handle
  ErrOut : Handle
  colorEnabled : Bool
  stdinTTYOverride : Bool
  stdinIsTTY : Bool
  stdoutTTYOverride : Bool
  stdoutIsTTY : Bool
  stderrTTYOverride : Bool
  stderrIsTTY : Bool
deriving DecidableEq, Repr

/-- What the world outside the package answers. -/
structure World where
  /-- value of `runtime.GOOS` -/
  GOOS : String
  /-- width in bits of `int` and `uintptr` on the platform -/
  intSize : Nat
  /-- the process environment, as `key = value` entries -/
  environ : List (String × String)
  /-- what `os.Stdin.Fd()` returns -/
  Stdin : OsFile
  /-- what `os.Stdout.Fd()` returns -/
  Stdout : OsFile
  /-- what `os.Stderr.Fd()` returns -/
  Stderr : OsFile
  /-- answer of `isatty.IsTerminal(fd)` -/
  ttyProbe : Nat → Bool
  /-- answer of `isatty.IsCygwinTerminal(fd)` -/
  cygwinProbe : Nat → Bool
  /-- answer of `terminal.GetSize(fd)`: width, height, error -/
  windowSize : Int → Int × Int × GoError
  /-- answer of `exec.Command(name, args...).Output()` with the given stdin:
  captured standard output and error -/
  cmdOutput : String → List String → OsFile → String × GoError
  /-- the function `strings.TrimSpace` -/
  trimSpace : String → String
  /-- the function `strconv.Atoi` -/
  atoi : String → Int × GoError
  /-- the function `colorable.NewColorable` -/
  newColorable : OsFile → Handle

/-- An external call made while a function runs. -/
inductive Call
  | isattyIsTerminal (fd : Nat)
  | isattyIsCygwinTerminal (fd : Nat)
  | terminalGetSize (fd : Int)
  | execOutput (name : String) (args : List String)
  | osGetenv (key : String)
  | colorableNewColorable (f : OsFile)
deriving DecidableEq, Repr

/-- A result together with the external calls made to obtain it, in order. -/
structure Traced (α : Type) where
  val : α
  calls : List Call

/-- Sequencing: run `m`, then `f` on its value; the calls are concatenated. -/
def Traced.bind {α β : Type} (m : Traced α) (f : α → Traced β) : Traced β :=
  ⟨(f m.val).val, m.calls ++ (f m.val).calls⟩

instance : Monad Traced where
  pure a := ⟨a, []⟩
  bind := Traced.bind

/-! ## External calls -/

/-- The call `isatty.IsTerminal(fd)`. -/
def isatty.IsTerminal (w : World) (fd : Nat) : Traced Bool :=
  ⟨w.ttyProbe fd, [Call.isattyIsTerminal fd]⟩

/-- The call `isatty.IsCygwinTerminal(fd)`. -/
def isatty.IsCygwinTerminal (w : World) (fd : Nat) : Traced Bool :=
  ⟨w.cygwinProbe fd, [Call.isattyIsCygwinTerminal fd]⟩

/-- The call `terminal.GetSize(fd)`. -/
def terminal.GetSize (w : World) (fd : Int) : Traced (Int × Int × GoError) :=
  ⟨w.windowSize fd, [Call.terminalGetSize fd]⟩

/-- The calls `cmd := exec.Command(name, args...); cmd.Stdin = stdin; cmd.Output()`. -/
def exec.Output (w : World) (name : String) (args : List String) (stdin : OsFile) :
    Traced (String × GoError) :=
  ⟨w.cmdOutput name args stdin, [Call.execOutput name args]⟩

/-- The call `os.Getenv(key)`: the value of the first entry for `key`, and the
empty string when the variable is not present. -/
def os.Getenv (w : World) (key : String) : Traced String :=
  ⟨(w.environ.lookup key).getD "", [Call.osGetenv key]⟩

/-- The call `colorable.NewColorable(f)`. -/
def colorable.NewColorable (w : World) (f : OsFile) : Traced Handle :=
  ⟨w.newColorable f, [Call.colorableNewColorable f]⟩

/-- The conversion `int(u)` of a `uintptr`: reinterpretation of the low
`bits` bits as a signed integer. -/
def intOfUintptr (bits : Nat) (u : Nat) : Int :=
  if u % 2 ^ bits < 2 ^ (bits - 1) then ((u % 2 ^ bits : Nat) : Int)
  else ((u % 2 ^ bits : Nat) : Int) - ((2 ^ bits : Nat) : Int)

/-! ## The package -/

/-- Method `func (s *IOStreams) ColorEnabled() bool` -/
def ColorEnabled (s : IOStreams) : Bool :=
  s.colorEnabled

/-- Method `func (s *IOStreams) SetStdinTTY(isTTY bool)` -/
def SetStdinTTY (s : IOStreams) (isTTY : Bool) : IOStreams :=
  { s with stdinTTYOverride := true, stdinIsTTY := isTTY }

/-- Method `func (s *IOStreams) SetStdoutTTY(isTTY bool)` -/
def SetStdoutTTY (s : IOStreams) (isTTY : Bool) : IOStreams :=
  { s with stdoutTTYOverride := true, stdoutIsTTY := isTTY }

/-- Method `func (s *IOStreams) SetStderrTTY(isTTY bool)` -/
def SetStderrTTY (s : IOStreams) (isTTY : Bool) : IOStreams :=
  { s with stderrTTYOverride := true, stderrIsTTY := isTTY }

/-- Function `func isTerminal(f *os.File) bool`; `||` evaluates its right operand only
when the left one is false. -/
def isTerminal (w : World) (f : OsFile) : Traced Bool := do
  if (← isatty.IsTerminal w f.Fd) then
    return true
  else
    isatty.IsCygwinTerminal w f.Fd

/-- Function `func isCygwinTerminal(w io.Writer) bool` -/
def isCygwinTerminal (w : World) (h : Handle) : Traced Bool :=
  match h with
  | Handle.osFile f => isatty.IsCygwinTerminal w f.Fd
  | _ => pure false

/-- Function `func terminalSize(w io.Writer) (int, int, error)`; the text of the error
built by `fmt.Errorf` is not modelled, only that it is non-nil. -/
def terminalSize (w : World) (h : Handle) : Traced (Int × Int × GoError) :=
  match h with
  | Handle.osFile f => terminal.GetSize w (intOfUintptr w.intSize f.Fd)
  | _ => pure (0, 0, some "not a file")

/-- Method `func (s *IOStreams) IsStdinTTY() bool` -/
def IsStdinTTY (w : World) (s : IOStreams) : Traced Bool :=
  if s.stdinTTYOverride then
    pure s.stdinIsTTY
  else
    match s.In with
    | Handle.osFile stdin => isTerminal w stdin
    | _ => pure false

/-- Method `func (s *IOStreams) IsStdoutTTY() bool` -/
def IsStdoutTTY (w : World) (s : IOStreams) : Traced Bool :=
  if s.stdoutTTYOverride then
    pure s.stdoutIsTTY
  else
    match s.Out with
    | Handle.osFile stdout => isTerminal w stdout
    | out =>
      if w.GOOS = "windows" then
        match out with
        | Handle.colorableWriter => pure true
        | _ => pure false
      else
        pure false

/-- Method `func (s *IOStreams) IsStderrTTY() bool` -/
def IsStderrTTY (w : World) (s : IOStreams) : Traced Bool :=
  if s.stderrTTYOverride then
    pure s.stderrIsTTY
  else
    match s.ErrOut with
    | Handle.osFile stderr => isTerminal w stderr
    | _ => pure false

/-- Method `func (s *IOStreams) TerminalWidth() int` -/
def TerminalWidth (w : World) (s : IOStreams) : Traced Int := do
  let defaultWidth : Int := 80
  if s.stdoutTTYOverride then
    return defaultWidth
  let (width, _, err) ← terminalSize w s.Out
  if err = none then
    return width
  if (← isCygwinTerminal w s.Out) then
    let (out, err) ← exec.Output w "tput" ["cols"] w.Stdin
    if err = none then
      let (n, err) := w.atoi (w.trimSpace out)
      if err = none then
        return n
  return defaultWidth

/-- Function `func System() *IOStreams`; the fields of the literal are evaluated in
order, and `&&` evaluates its right operand only when the left one is true. -/
def System (w : World) : Traced IOStreams := do
  let out ← colorable.NewColorable w w.Stdout
  let errOut ← colorable.NewColorable w w.Stderr
  let noColor ← os.Getenv w "NO_COLOR"
  let color ← (if noColor = "" then isTerminal w w.Stdout else pure false)
  return { In := Handle.osFile w.Stdin, Out := out, ErrOut := errOut,
           colorEnabled := color,
           stdinTTYOverride := false, stdinIsTTY := false,
           stdoutTTYOverride := false, stdoutIsTTY := false,
           stderrTTYOverride := false, stderrIsTTY := false }

/-- Function `func Test() (*IOStreams, *bytes.Buffer, *bytes.Buffer, *bytes.Buffer)`;
the three fresh buffers are numbered 0, 1 and 2. -/
def Test : IOStreams × Handle × Handle × Handle :=
  let inBuf := Handle.bytesBuffer 0
  let out := Handle.bytesBuffer 1
  let errOut := Handle.bytesBuffer 2
  ({ In := Handle.nopCloser 0, Out := out, ErrOut := errOut,
     colorEnabled := false,
     stdinTTYOverride := false, stdinIsTTY := false,
     stdoutTTYOverride := false, stdoutIsTTY := false,
     stderrTTYOverride := false, stderrIsTTY := false }, inBuf, out, errOut)

/-! ## Sequences of calls on one `IOStreams` value -/

/-- The three streams. -/
inductive StreamId
  | stdin
  | stdout
  | stderr
deriving DecidableEq, Repr

/-- The setter of stream `x`. -/
def SetTTY (x : StreamId) (s : IOStreams) (isTTY : Bool) : IOStreams :=
  match x with
  | StreamId.stdin => SetStdinTTY s isTTY
  | StreamId.stdout => SetStdoutTTY s isTTY
  | StreamId.stderr => SetStderrTTY s isTTY

/-- The terminal query of stream `x`. -/
def IsTTY (w : World) (x : StreamId) (s : IOStreams) : Traced Bool :=
  match x with
  | StreamId.stdin => IsStdinTTY w s
  | StreamId.stdout => IsStdoutTTY w s
  | StreamId.stderr => IsStderrTTY w s

/-- The override flag of stream `x`. -/
def overrideSet (x : StreamId) (s : IOStreams) : Bool :=
  match x with
  | StreamId.stdin => s.stdinTTYOverride
  | StreamId.stdout => s.stdoutTTYOverride
  | StreamId.stderr => s.stderrTTYOverride

/-- The forced value stored for stream `x`. -/
def forcedValue (x : StreamId) (s : IOStreams) : Bool :=
  match x with
  | StreamId.stdin => s.stdinIsTTY
  | StreamId.stdout => s.stdoutIsTTY
  | StreamId.stderr => s.stderrIsTTY

/-- A call of one of the exported methods of `*IOStreams`. -/
inductive Op
  | SetStdinTTY (isTTY : Bool)
  | SetStdoutTTY (isTTY : Bool)
  | SetStderrTTY (isTTY : Bool)
  | IsStdinTTY
  | IsStdoutTTY
  | IsStderrTTY
  | ColorEnabled
  | TerminalWidth
deriving DecidableEq, Repr

/-- The stream whose setter the call is, if it is a setter. -/
def Op.setterOf : Op → Option StreamId
  | Op.SetStdinTTY _ => some StreamId.stdin
  | Op.SetStdoutTTY _ => some StreamId.stdout
  | Op.SetStderrTTY _ => some StreamId.stderr
  | _ => none

/-- What a method call returns. -/
inductive Ret
  | unit
  | bool (b : Bool)
  | int (n : Int)
deriving DecidableEq, Repr

/-- One method call on `s` in world `w`: the value of `*s` after the call and
what the call returned. The queries assign to no field. -/
def step (w : World) (s : IOStreams) : Op → IOStreams × Ret
  | Op.SetStdinTTY b => (SetStdinTTY s b, Ret.unit)
  | Op.SetStdoutTTY b => (SetStdoutTTY s b, Ret.unit)
  | Op.SetStderrTTY b => (SetStderrTTY s b, Ret.unit)
  | Op.IsStdinTTY => (s, Ret.bool (IsStdinTTY w s).val)
  | Op.IsStdoutTTY => (s, Ret.bool (IsStdoutTTY w s).val)
  | Op.IsStderrTTY => (s, Ret.bool (IsStderrTTY w s).val)
  | Op.ColorEnabled => (s, Ret.bool (ColorEnabled s))
  | Op.TerminalWidth => (s, Ret.int (TerminalWidth w s).val)

/-- A finite sequence of method calls, each in the world as it is at the time
of the call; the result is the final value of `*s`. -/
def run (s : IOStreams) : List (World × Op) → IOStreams
  | [] => s
  | (w, op) :: rest => run (step w s op).1 rest

/-! ## Reference answers -/

/-- The answer of the terminal probe for a handle: standard terminal or
Cygwin terminal when the handle is a real OS file, `false` for every other
handle. -/
def probeAnswer (w : World) (h : Handle) : Bool :=
  match h with
  | Handle.osFile f => w.ttyProbe f.Fd || w.cygwinProbe f.Fd
  | _ => false

/-- The variable `key` is present in the process environment. -/
def envPresent (w : World) (key : String) : Bool :=
  (w.environ.lookup key).isSome

/-! ## Example worlds and values -/

/-- Example of a whitespace trimmer, standing in for `strings.TrimSpace`. -/
def exampleTrimSpace (s : String) : String :=
  ⟨((s.data.dropWhile Char.isWhitespace).reverse.dropWhile Char.isWhitespace).reverse⟩

/-- Example of a decimal parser, standing in for `strconv.Atoi`. -/
def exampleAtoi (s : String) : Int × GoError :=
  if s.data ≠ [] ∧ s.data.all Char.isDigit = true then
    (Int.ofNat (s.data.foldl (fun n c => 10 * n + (c.toNat - 48)) 0), none)
  else
    (0, some "invalid syntax")

/-- A Unix-like world: descriptors 0, 1, 2 are terminals 120 columns wide, no
descriptor is a Cygwin terminal, `NO_COLOR` is absent. -/
def unixTerminal : World :=
  { GOOS := "linux", intSize := 64, environ := [("HOME", "/root")],
    Stdin := ⟨0⟩, Stdout := ⟨1⟩, Stderr := ⟨2⟩,
    ttyProbe := fun fd => decide (fd ≤ 2),
    cygwinProbe := fun _ => false,
    windowSize := fun fd =>
      if 0 ≤ fd ∧ fd ≤ 2 then (120, 40, none) else (0, 0, some "inappropriate ioctl for device"),
    cmdOutput := fun _ _ _ => ("", some "executable file not found"),
    trimSpace := exampleTrimSpace,
    atoi := exampleAtoi,
    newColorable := fun f => Handle.osFile f }

/-- The world `unixTerminal` with `NO_COLOR` present and empty. -/
def unixNoColorEmpty : World :=
  { unixTerminal with environ := [("NO_COLOR", "")] }

/-- The world `unixTerminal` with `NO_COLOR=1`. -/
def unixNoColorOne : World :=
  { unixTerminal with environ := [("NO_COLOR", "1")] }

/-- A Windows console world: descriptors 0, 1, 2 are consoles, and
`colorable.NewColorable` wraps them. -/
def windowsConsole : World :=
  { GOOS := "windows", intSize := 64, environ := [],
    Stdin := ⟨0⟩, Stdout := ⟨1⟩, Stderr := ⟨2⟩,
    ttyProbe := fun fd => decide (fd ≤ 2),
    cygwinProbe := fun _ => false,
    windowSize := fun fd =>
      if 0 ≤ fd ∧ fd ≤ 2 then (100, 30, none) else (0, 0, some "invalid handle"),
    cmdOutput := fun _ _ _ => ("", some "executable file not found"),
    trimSpace := exampleTrimSpace,
    atoi := exampleAtoi,
    newColorable := fun _ => Handle.colorableWriter }

/-- A Cygwin world: descriptors 0, 1, 2 are Cygwin pseudo terminals, the
window-size call fails on them, and `tput cols` prints `132`. -/
def cygwin : World :=
  { GOOS := "windows", intSize := 64, environ := [],
    Stdin := ⟨0⟩, Stdout := ⟨1⟩, Stderr := ⟨2⟩,
    ttyProbe := fun _ => false,
    cygwinProbe := fun fd => decide (fd ≤ 2),
    windowSize := fun _ => (0, 0, some "invalid handle"),
    cmdOutput := fun name args _ =>
      if name = "tput" ∧ args = ["cols"] then ("132\n", none) else ("", some "exit status 1"),
    trimSpace := exampleTrimSpace,
    atoi := exampleAtoi,
    newColorable := fun f => Handle.osFile f }

/-- The world `cygwin` in which `tput cols` prints text that is not a number. -/
def cygwinBadTput : World :=
  { cygwin with cmdOutput := fun _ _ _ => ("unknown terminal\n", none) }

/-- A value bound to the process streams, with no override and color off. -/
def onProcessStreams : IOStreams :=
  { In := Handle.osFile ⟨0⟩, Out := Handle.osFile ⟨1⟩, ErrOut := Handle.osFile ⟨2⟩,
    colorEnabled := false,
    stdinTTYOverride := false, stdinIsTTY := false,
    stdoutTTYOverride := false, stdoutIsTTY := false,
    stderrTTYOverride := false, stderrIsTTY := false }

/-- A value whose output is a `*colorableWriter`, with no override. -/
def onColorableWriter : IOStreams :=
  { onProcessStreams with Out := Handle.colorableWriter, ErrOut := Handle.colorableWriter }

/-- The world `cygwin` in which `tput` cannot be started. -/
def cygwinNoTput : World :=
  { cygwin with cmdOutput := fun _ _ _ => ("", some "executable file not found") }

/-- A Linux world with a second terminal: descriptors 0, 1, 2 are a terminal
120 columns wide, descriptor 5 is a terminal 200 columns wide, every other
descriptor is a plain file. No descriptor is a Cygwin terminal, and `tput cols`
would print `999`. -/
def twoTerminals : World :=
  { GOOS := "linux", intSize := 64, environ := [],
    Stdin := ⟨0⟩, Stdout := ⟨1⟩, Stderr := ⟨2⟩,
    ttyProbe := fun fd => decide (fd ≤ 2 ∨ fd = 5),
    cygwinProbe := fun _ => false,
    windowSize := fun fd =>
      if fd = 5 then (200, 50, none)
      else if 0 ≤ fd ∧ fd ≤ 2 then (120, 40, none)
      else (0, 0, some "inappropriate ioctl for device"),
    cmdOutput := fun _ _ _ => ("999\n", none),
    trimSpace := exampleTrimSpace,
    atoi := exampleAtoi,
    newColorable := fun f => Handle.osFile f }

/-- A value whose output is the OS file with descriptor `fd`, with no
override. -/
def onDescriptor (fd : Nat) : IOStreams :=
  { onProcessStreams with Out := Handle.osFile ⟨fd⟩ }

/-! ## Basic facts about the embedding -/

theorem pure_val {α : Type} (a : α) : (pure a : Traced α).val = a := rfl

theorem pure_calls {α : Type} (a : α) : (pure a : Traced α).calls = [] := rfl

theorem bind_val {α β : Type} (m : Traced α) (f : α → Traced β) :
    (m >>= f).val = (f m.val).val := rfl

theorem bind_calls {α β : Type} (m : Traced α) (f : α → Traced β) :
    (m >>= f).calls = m.calls ++ (f m.val).calls := rfl

/-- The value of `isTerminal`: standard terminal or Cygwin terminal. -/
theorem isTerminal_val (w : World) (f : OsFile) :
    (isTerminal w f).val = (w.ttyProbe f.Fd || w.cygwinProbe f.Fd) := by
  unfold isTerminal
  rw [bind_val]
  cases h : w.ttyProbe f.Fd <;> simp [isatty.IsTerminal, isatty.IsCygwinTerminal, h, pure_val]

/-- The value of `TerminalWidth` when no stdout override is set, as a
function of the values of the calls it makes. -/
theorem TerminalWidth_val (w : World) (s : IOStreams) (h : s.stdoutTTYOverride = false) :
    (TerminalWidth w s).val =
      if (terminalSize w s.Out).val.2.2 = none then (terminalSize w s.Out).val.1
      else if (isCygwinTerminal w s.Out).val = true
          ∧ (w.cmdOutput "tput" ["cols"] w.Stdin).2 = none
          ∧ (w.atoi (w.trimSpace (w.cmdOutput "tput" ["cols"] w.Stdin).1)).2 = none then
        (w.atoi (w.trimSpace (w.cmdOutput "tput" ["cols"] w.Stdin).1)).1
      else 80 := by
  unfold TerminalWidth
  simp only [h]
  by_cases h1 : (terminalSize w s.Out).val.2.2 = none
  · simp [bind_val, pure_val, h1]
  · by_cases h2 : (isCygwinTerminal w s.Out).val = true
    · by_cases h3 : (w.cmdOutput "tput" ["cols"] w.Stdin).2 = none
      · by_cases h4 : (w.atoi (w.trimSpace (w.cmdOutput "tput" ["cols"] w.Stdin).1)).2 = none
        · simp [bind_val, pure_val, h1, h2, h3, h4, exec.Output]
        · simp [bind_val, pure_val, h1, h2, h3, h4, exec.Output]
      · simp [bind_val, pure_val, h1, h2, h3, exec.Output]
    · simp [bind_val, pure_val, h1, h2]

/-- The calls of `TerminalWidth` when no stdout override is set. -/
theorem TerminalWidth_calls (w : World) (s : IOStreams) (h : s.stdoutTTYOverride = false) :
    (TerminalWidth w s).calls =
      (terminalSize w s.Out).calls ++
        (if (terminalSize w s.Out).val.2.2 = none then []
         else (isCygwinTerminal w s.Out).calls ++
           (if (isCygwinTerminal w s.Out).val = true then [Call.execOutput "tput" ["cols"]]
            else [])) := by
  unfold TerminalWidth
  simp only [h]
  by_cases h1 : (terminalSize w s.Out).val.2.2 = none
  · simp [bind_calls, pure_calls, h1]
  · by_cases h2 : (isCygwinTerminal w s.Out).val = true
    · by_cases h3 : (w.cmdOutput "tput" ["cols"] w.Stdin).2 = none
      · by_cases h4 : (w.atoi (w.trimSpace (w.cmdOutput "tput" ["cols"] w.Stdin).1)).2 = none
        · simp [bind_calls, pure_calls, h1, h2, h3, h4, exec.Output]
        · simp [bind_calls, pure_calls, h1, h2, h3, h4, exec.Output]
      · simp [bind_calls, pure_calls, h1, h2, h3, exec.Output]
    · simp [bind_calls, pure_calls, h1, h2]

/-- The color flag computed by `System`. -/
theorem System_colorEnabled (w : World) :
    (System w).val.colorEnabled =
      (decide ((w.environ.lookup "NO_COLOR").getD "" = "") && (isTerminal w w.Stdout).val) := by
  unfold System
  by_cases h : (w.environ.lookup "NO_COLOR").getD "" = ""
  · simp [bind_val, pure_val, os.Getenv, h]
  · simp [bind_val, pure_val, os.Getenv, h]

/-- A method call does not change the color flag. -/
theorem step_colorEnabled (w : World) (s : IOStreams) (op : Op) :
    (step w s op).1.colorEnabled = s.colorEnabled := by
  cases op <;> rfl

/-- A method call does not clear an override flag. -/
theorem step_overrideSet (x : StreamId) (w : World) (s : IOStreams) (op : Op)
    (h : overrideSet x s = true) : overrideSet x (step w s op).1 = true := by
  cases x <;> cases op <;> first | exact h | rfl

/-- A method call other than the setter of `x` keeps the forced value of `x`. -/
theorem step_forcedValue (x : StreamId) (w : World) (s : IOStreams) (op : Op)
    (h : op.setterOf ≠ some x) : forcedValue x (step w s op).1 = forcedValue x s := by
  cases x <;> cases op <;> first | rfl | exact absurd rfl h

/-- With the override of `x` set, the query of `x` returns the forced value
and makes no call. -/
theorem IsTTY_of_overrideSet (w : World) (x : StreamId) (s : IOStreams)
    (h : overrideSet x s = true) : IsTTY w x s = ⟨forcedValue x s, []⟩ := by
  cases x <;> simp only [overrideSet] at h <;>
    simp [IsTTY, IsStdinTTY, IsStdoutTTY, IsStderrTTY, forcedValue, h] <;> rfl

/-! ## Overrides and terminal queries -/

/-- C1: override always wins. For every `IOStreams` value, every world (platform
and probe answers) and every boolean `b`, after `SetStdinTTY(b)` the query
`IsStdinTTY()` returns `b`, and likewise for stdout and stderr; the queries make
no external call at all. -/
theorem C1_override_always_wins (w : World) (s : IOStreams) (b : Bool) :
    ((IsStdinTTY w (SetStdinTTY s b)).val = b ∧ (IsStdinTTY w (SetStdinTTY s b)).calls = []) ∧
    ((IsStdoutTTY w (SetStdoutTTY s b)).val = b ∧ (IsStdoutTTY w (SetStdoutTTY s b)).calls = []) ∧
    ((IsStderrTTY w (SetStderrTTY s b)).val = b ∧ (IsStderrTTY w (SetStderrTTY s b)).calls = []) := by
  refine ⟨⟨?_, ?_⟩, ⟨?_, ?_⟩, ⟨?_, ?_⟩⟩ <;>
    simp [IsStdinTTY, IsStdoutTTY, IsStderrTTY, SetStdinTTY, SetStdoutTTY, SetStderrTTY,
      pure_val, pure_calls]

/-- C2 as stated fails: on windows, with no stdout override and the output
bound to a `*colorableWriter` (not a real OS file), `IsStdoutTTY()` returns
`true`, not `false`. -/
theorem C2_counterexample :
    ¬ ∀ (w : World) (s : IOStreams), s.stdoutTTYOverride = false →
        (IsStdoutTTY w s).val = probeAnswer w s.Out := by
  intro h
  exact absurd (h windowsConsole onColorableWriter rfl) (by decide)

/-- C2 amended: with no override set for the queried stream, `IsStdinTTY` and
`IsStderrTTY` return the terminal probe's answer (standard or Cygwin terminal)
when the bound stream is a real OS file and `false` otherwise, on every
platform. `IsStdoutTTY` returns the probe's answer when the output is a real OS
file; when it is not, it returns `true` if the platform is windows and the
output is a `*colorableWriter`, and `false` in every other case. -/
theorem C2_probe_without_override (w : World) (s : IOStreams) :
    (s.stdinTTYOverride = false → (IsStdinTTY w s).val = probeAnswer w s.In) ∧
    (s.stderrTTYOverride = false → (IsStderrTTY w s).val = probeAnswer w s.ErrOut) ∧
    (s.stdoutTTYOverride = false →
      (∀ f, s.Out = Handle.osFile f → (IsStdoutTTY w s).val = probeAnswer w s.Out) ∧
      (s.Out = Handle.colorableWriter → w.GOOS = "windows" → (IsStdoutTTY w s).val = true) ∧
      ((∀ f, s.Out ≠ Handle.osFile f) →
        (w.GOOS ≠ "windows" ∨ s.Out ≠ Handle.colorableWriter) →
        (IsStdoutTTY w s).val = false)) := by
  refine ⟨?_, ?_, ?_⟩
  · intro h
    unfold IsStdinTTY
    cases hI : s.In <;> simp [h, probeAnswer, isTerminal_val, pure_val]
  · intro h
    unfold IsStderrTTY
    cases hE : s.ErrOut <;> simp [h, probeAnswer, isTerminal_val, pure_val]
  · intro h
    refine ⟨?_, ?_, ?_⟩
    · intro f hf
      simp [IsStdoutTTY, h, hf, probeAnswer, isTerminal_val]
    · intro hc hw
      simp [IsStdoutTTY, h, hc, hw, pure_val]
    · intro hnf hor
      unfold IsStdoutTTY
      cases hO : s.Out with
      | osFile f => exact absurd hO (hnf f)
      | colorableWriter =>
        have hw : w.GOOS ≠ "windows" := by
          rcases hor with hw | hc
          · exact hw
          · exact absurd hO hc
        simp [h, hw, pure_val]
      | bytesBuffer n => by_cases hw : w.GOOS = "windows" <;> simp [h, hw, pure_val]
      | nopCloser n => by_cases hw : w.GOOS = "windows" <;> simp [h, hw, pure_val]
      | other n => by_cases hw : w.GOOS = "windows" <;> simp [h, hw, pure_val]

/-- C2 amended, at concrete inputs: process streams on a Unix terminal, a
`*colorableWriter` on a Windows console, and a `*colorableWriter` on Linux. -/
theorem C2_probe_without_override_witness :
    ((IsStdinTTY unixTerminal onProcessStreams).val = true ∧
      (IsStderrTTY unixTerminal onProcessStreams).val = true ∧
      (IsStdoutTTY unixTerminal onProcessStreams).val = true) ∧
    (windowsConsole.GOOS = "windows" ∧ onColorableWriter.Out = Handle.colorableWriter ∧
      (IsStdoutTTY windowsConsole onColorableWriter).val = true) ∧
    (unixTerminal.GOOS ≠ "windows" ∧
      (IsStdoutTTY unixTerminal onColorableWriter).val = false) :=
  ⟨⟨(C2_probe_without_override unixTerminal onProcessStreams).1 rfl,
    (C2_probe_without_override unixTerminal onProcessStreams).2.1 rfl,
    ((C2_probe_without_override unixTerminal onProcessStreams).2.2 rfl).1 ⟨1⟩ rfl⟩,
   ⟨by decide, rfl,
    ((C2_probe_without_override windowsConsole onColorableWriter).2.2 rfl).2.1 rfl (by decide)⟩,
   ⟨by decide,
    ((C2_probe_without_override unixTerminal onColorableWriter).2.2 rfl).2.2
      (fun _ hf => Handle.noConfusion hf) (Or.inl (by decide))⟩⟩

/-! ## Terminal width -/

/-- C3: if the stdout override has been set, to `true` or to `false`,
`TerminalWidth()` returns exactly 80 for every bound output handle and in every
world; it makes no external call, so neither the window-size probe, the Cygwin
probe nor `tput cols` influences the result. -/
theorem C3_width_under_override (w : World) (s : IOStreams)
    (h : s.stdoutTTYOverride = true) :
    (TerminalWidth w s).val = 80 ∧ (TerminalWidth w s).calls = [] ∧
    ∀ w2 : World, (TerminalWidth w2 s).val = (TerminalWidth w s).val := by
  have key : ∀ w1 : World, TerminalWidth w1 s = ⟨80, []⟩ := by
    intro w1
    unfold TerminalWidth
    simp only [h]
    rfl
  refine ⟨by rw [key], by rw [key], fun w2 => by rw [key, key]⟩

/-- C3 at a concrete input: on a terminal 120 columns wide the width is 120
without an override and 80 after `SetStdoutTTY(true)` or `SetStdoutTTY(false)`. -/
theorem C3_width_under_override_witness :
    (TerminalWidth unixTerminal onProcessStreams).val = 120 ∧
    (SetStdoutTTY onProcessStreams true).stdoutTTYOverride = true ∧
    (TerminalWidth unixTerminal (SetStdoutTTY onProcessStreams true)).val = 80 ∧
    (TerminalWidth unixTerminal (SetStdoutTTY onProcessStreams false)).val = 80 :=
  ⟨by decide, rfl,
   (C3_width_under_override unixTerminal (SetStdoutTTY onProcessStreams true) rfl).1,
   (C3_width_under_override unixTerminal (SetStdoutTTY onProcessStreams false) rfl).1⟩

/-- C4: for the value returned by `Test()` with no setter called, in every
world (every platform), `IsStdinTTY()`, `IsStdoutTTY()` and `IsStderrTTY()`
return `false` and `ColorEnabled()` is `false`. -/
theorem C4_test_defaults (w : World) :
    (IsStdinTTY w Test.1).val = false ∧ (IsStdoutTTY w Test.1).val = false ∧
    (IsStderrTTY w Test.1).val = false ∧ ColorEnabled Test.1 = false := by
  refine ⟨rfl, ?_, rfl, rfl⟩
  by_cases hw : w.GOOS = "windows" <;> simp [IsStdoutTTY, Test, hw, pure_val]

/-- C5: for the value returned by `Test()` with no override set,
`TerminalWidth()` returns 80 in every world: the window-size probe returns an
error for the buffer-backed output handle, the Cygwin check is false for it,
and no command is run. -/
theorem C5_test_width (w : World) :
    (TerminalWidth w Test.1).val = 80 ∧
    (terminalSize w Test.1.Out).val.2.2 ≠ none ∧
    (isCygwinTerminal w Test.1.Out).val = false ∧
    (∀ (name : String) (args : List String),
      Call.execOutput name args ∉ (TerminalWidth w Test.1).calls) := by
  have hT : TerminalWidth w Test.1 = ⟨80, []⟩ := rfl
  refine ⟨by rw [hT], ?_, rfl, ?_⟩
  · simp [terminalSize, Test, pure_val]
  · intro name args
    rw [hT]
    simp

/-- C9: with no stdout override set, `TerminalWidth()` is the ordered fallback
chain, stated on what the world answers for the bound output handle.
(1) If the output is a real OS file and the window-size probe on its
descriptor returns width `width` with no error, the result is `width`, and the
size probe is the only external call (no command is run).
(2) Otherwise, if the output is a real OS file whose descriptor the Cygwin
probe accepts, and `tput cols` succeeds with output whose trimmed text parses
as the integer `n`, the result is `n`, after exactly the size probe, the Cygwin
probe and the command.
(3) In every remaining case the result is 80: the output is not a real OS
file (no external call at all); or the size probe fails and the Cygwin probe
rejects the descriptor (no command is run); or the command fails or its output
does not parse.
(4) The function is total: in every world the result is 80, the probed width
or the parsed number.
(5) The descriptor given to the size probe is `int(f.Fd())`, which is the
descriptor itself whenever it lies in the non-negative range of `int`. -/
theorem C9_width_fallback_chain (w : World) (s : IOStreams)
    (h : s.stdoutTTYOverride = false) :
    (∀ (f : OsFile) (width height : Int), s.Out = Handle.osFile f →
      w.windowSize (intOfUintptr w.intSize f.Fd) = (width, height, none) →
      (TerminalWidth w s).val = width ∧
      (TerminalWidth w s).calls = [Call.terminalGetSize (intOfUintptr w.intSize f.Fd)]) ∧
    (∀ (f : OsFile) (out : String) (n : Int), s.Out = Handle.osFile f →
      (w.windowSize (intOfUintptr w.intSize f.Fd)).2.2 ≠ none →
      w.cygwinProbe f.Fd = true →
      w.cmdOutput "tput" ["cols"] w.Stdin = (out, none) →
      w.atoi (w.trimSpace out) = (n, none) →
      (TerminalWidth w s).val = n ∧
      (TerminalWidth w s).calls =
        [Call.terminalGetSize (intOfUintptr w.intSize f.Fd),
         Call.isattyIsCygwinTerminal f.Fd, Call.execOutput "tput" ["cols"]]) ∧
    ((∀ f : OsFile, s.Out ≠ Handle.osFile f) →
      (TerminalWidth w s).val = 80 ∧ (TerminalWidth w s).calls = []) ∧
    (∀ f : OsFile, s.Out = Handle.osFile f →
      (w.windowSize (intOfUintptr w.intSize f.Fd)).2.2 ≠ none →
      w.cygwinProbe f.Fd = false →
      (TerminalWidth w s).val = 80 ∧
      (TerminalWidth w s).calls =
        [Call.terminalGetSize (intOfUintptr w.intSize f.Fd),
         Call.isattyIsCygwinTerminal f.Fd]) ∧
    (∀ f : OsFile, s.Out = Handle.osFile f →
      (w.windowSize (intOfUintptr w.intSize f.Fd)).2.2 ≠ none →
      w.cygwinProbe f.Fd = true →
      ((w.cmdOutput "tput" ["cols"] w.Stdin).2 ≠ none ∨
        (w.atoi (w.trimSpace (w.cmdOutput "tput" ["cols"] w.Stdin).1)).2 ≠ none) →
      (TerminalWidth w s).val = 80) ∧
    ((TerminalWidth w s).val = 80 ∨
      ∃ f : OsFile, s.Out = Handle.osFile f ∧
        ((TerminalWidth w s).val = (w.windowSize (intOfUintptr w.intSize f.Fd)).1 ∨
         (TerminalWidth w s).val =
           (w.atoi (w.trimSpace (w.cmdOutput "tput" ["cols"] w.Stdin).1)).1)) ∧
    (∀ u : Nat, u < 2 ^ (w.intSize - 1) → intOfUintptr w.intSize u = (u : Int)) := by
  have hsize : ∀ f : OsFile, s.Out = Handle.osFile f →
      terminalSize w s.Out =
        ⟨w.windowSize (intOfUintptr w.intSize f.Fd),
         [Call.terminalGetSize (intOfUintptr w.intSize f.Fd)]⟩ := by
    intro f hf
    rw [hf]
    rfl
  have hcyg : ∀ f : OsFile, s.Out = Handle.osFile f →
      isCygwinTerminal w s.Out = ⟨w.cygwinProbe f.Fd, [Call.isattyIsCygwinTerminal f.Fd]⟩ := by
    intro f hf
    rw [hf]
    rfl
  refine ⟨?_, ?_, ?_, ?_, ?_, ?_, ?_⟩
  · intro f width height hf hsz
    rw [TerminalWidth_val w s h, TerminalWidth_calls w s h, hsize f hf]
    simp [hsz]
  · intro f out n hf herr hc htput hatoi
    rw [TerminalWidth_val w s h, TerminalWidth_calls w s h, hsize f hf, hcyg f hf]
    simp [herr, hc, htput, hatoi]
  · intro hnf
    have hts : terminalSize w s.Out = ⟨(0, 0, some "not a file"), []⟩ := by
      cases hO : s.Out with
      | osFile f => exact absurd hO (hnf f)
      | colorableWriter => rfl
      | bytesBuffer n => rfl
      | nopCloser n => rfl
      | other n => rfl
    have hcy : isCygwinTerminal w s.Out = ⟨false, []⟩ := by
      cases hO : s.Out with
      | osFile f => exact absurd hO (hnf f)
      | colorableWriter => rfl
      | bytesBuffer n => rfl
      | nopCloser n => rfl
      | other n => rfl
    rw [TerminalWidth_val w s h, TerminalWidth_calls w s h, hts, hcy]
    simp
  · intro f hf herr hc
    rw [TerminalWidth_val w s h, TerminalWidth_calls w s h, hsize f hf, hcyg f hf]
    simp [herr, hc]
  · intro f hf herr hc hor
    rw [TerminalWidth_val w s h, hsize f hf, hcyg f hf]
    rw [if_neg herr]
    apply if_neg
    rintro ⟨_, h2, h3⟩
    rcases hor with h0 | h0
    · exact h0 h2
    · exact h0 h3
  · rw [TerminalWidth_val w s h]
    cases hO : s.Out with
    | osFile f =>
      rw [← hO, hsize f hO]
      split
      · exact Or.inr ⟨f, hO, Or.inl rfl⟩
      · split
        · exact Or.inr ⟨f, hO, Or.inr rfl⟩
        · exact Or.inl rfl
    | colorableWriter => left; simp [terminalSize, isCygwinTerminal, pure_val]
    | bytesBuffer n => left; simp [terminalSize, isCygwinTerminal, pure_val]
    | nopCloser n => left; simp [terminalSize, isCygwinTerminal, pure_val]
    | other n => left; simp [terminalSize, isCygwinTerminal, pure_val]
  · intro u hu
    unfold intOfUintptr
    have hle : 2 ^ (w.intSize - 1) ≤ 2 ^ w.intSize :=
      Nat.pow_le_pow_right (by decide) (Nat.sub_le _ _)
    have hmod : u % 2 ^ w.intSize = u := Nat.mod_eq_of_lt (lt_of_lt_of_le hu hle)
    rw [hmod, if_pos hu]

/-- C9 at concrete inputs: terminals 120 and 200 columns wide on descriptors
1 and 5; a Cygwin terminal where `tput cols` prints `132`; a plain file that is
no terminal, in a world where `tput cols` would print `999`; an in-memory
buffer; and Cygwin terminals where `tput` cannot be started or prints text that
is not a number. -/
theorem C9_width_fallback_chain_witness :
    ((TerminalWidth twoTerminals (onDescriptor 1)).val = 120 ∧
      (TerminalWidth twoTerminals (onDescriptor 1)).calls = [Call.terminalGetSize 1]) ∧
    ((TerminalWidth twoTerminals (onDescriptor 5)).val = 200 ∧
      (TerminalWidth twoTerminals (onDescriptor 5)).calls = [Call.terminalGetSize 5]) ∧
    ((cygwin.windowSize 1).2.2 ≠ none ∧ cygwin.cygwinProbe 1 = true ∧
      cygwin.cmdOutput "tput" ["cols"] cygwin.Stdin = ("132\n", none) ∧
      cygwin.atoi (cygwin.trimSpace "132\n") = (132, none) ∧
      (TerminalWidth cygwin onProcessStreams).val = 132 ∧
      (TerminalWidth cygwin onProcessStreams).calls =
        [Call.terminalGetSize 1, Call.isattyIsCygwinTerminal 1,
         Call.execOutput "tput" ["cols"]]) ∧
    ((twoTerminals.windowSize 8).2.2 ≠ none ∧ twoTerminals.cygwinProbe 8 = false ∧
      twoTerminals.cmdOutput "tput" ["cols"] twoTerminals.Stdin = ("999\n", none) ∧
      (TerminalWidth twoTerminals (onDescriptor 8)).val = 80 ∧
      (TerminalWidth twoTerminals (onDescriptor 8)).calls =
        [Call.terminalGetSize 8, Call.isattyIsCygwinTerminal 8]) ∧
    ((TerminalWidth cygwin onColorableWriter).val = 80 ∧
      (TerminalWidth cygwin onColorableWriter).calls = []) ∧
    ((cygwinNoTput.cmdOutput "tput" ["cols"] cygwinNoTput.Stdin).2 ≠ none ∧
      (TerminalWidth cygwinNoTput onProcessStreams).val = 80) ∧
    ((cygwinBadTput.atoi (cygwinBadTput.trimSpace
        (cygwinBadTput.cmdOutput "tput" ["cols"] cygwinBadTput.Stdin).1)).2 ≠ none ∧
      (TerminalWidth cygwinBadTput onProcessStreams).val = 80) ∧
    intOfUintptr twoTerminals.intSize 5 = 5 :=
  ⟨(C9_width_fallback_chain twoTerminals (onDescriptor 1) rfl).1 ⟨1⟩ 120 40 rfl (by decide),
   (C9_width_fallback_chain twoTerminals (onDescriptor 5) rfl).1 ⟨5⟩ 200 50 rfl (by decide),
   ⟨by decide, by decide, by decide, by decide,
    (C9_width_fallback_chain cygwin onProcessStreams rfl).2.1 ⟨1⟩ "132\n" 132 rfl
      (by decide) (by decide) (by decide) (by decide)⟩,
   ⟨by decide, by decide, by decide,
    (C9_width_fallback_chain twoTerminals (onDescriptor 8) rfl).2.2.2.1 ⟨8⟩ rfl
      (by decide) (by decide)⟩,
   (C9_width_fallback_chain cygwin onColorableWriter rfl).2.2.1
      (fun _ hf => Handle.noConfusion hf),
   ⟨by decide,
    (C9_width_fallback_chain cygwinNoTput onProcessStreams rfl).2.2.2.2.1 ⟨1⟩ rfl
      (by decide) (by decide) (Or.inl (by decide))⟩,
   ⟨by decide,
    (C9_width_fallback_chain cygwinBadTput onProcessStreams rfl).2.2.2.2.1 ⟨1⟩ rfl
      (by decide) (by decide) (Or.inr (by decide))⟩,
   (C9_width_fallback_chain twoTerminals (onDescriptor 5) rfl).2.2.2.2.2.2 5 (by decide)⟩

/-! ## Color -/

/-- C6: `ColorEnabled()` is fixed at construction. For every `IOStreams` value
and every finite sequence of method calls (the three setters with arbitrary
arguments, and the queries), `ColorEnabled()` after the sequence equals
`ColorEnabled()` before it; in particular no single setter call, such as
`SetStdoutTTY(true)`, changes it. -/
theorem C6_color_fixed (s : IOStreams) (calls : List (World × Op)) :
    ColorEnabled (run s calls) = ColorEnabled s ∧
    (∀ b : Bool, ColorEnabled (SetStdinTTY s b) = ColorEnabled s ∧
      ColorEnabled (SetStdoutTTY s b) = ColorEnabled s ∧
      ColorEnabled (SetStderrTTY s b) = ColorEnabled s) := by
  refine ⟨?_, fun b => ⟨rfl, rfl, rfl⟩⟩
  induction calls generalizing s with
  | nil => rfl
  | cons c rest ih =>
    obtain ⟨w, op⟩ := c
    show ColorEnabled (run (step w s op).1 rest) = ColorEnabled s
    rw [ih]
    exact step_colorEnabled w s op

/-- C7 as stated fails: with `NO_COLOR` present and empty and process stdout a
terminal, `System()` yields `ColorEnabled() = true`. -/
theorem C7_counterexample :
    ¬ ∀ w : World, envPresent w "NO_COLOR" = true → ColorEnabled (System w).val = false := by
  intro h
  exact absurd (h unixNoColorEmpty (by decide)) (by decide)

/-- C7 amended: for the value returned by `System()`, whenever `NO_COLOR` is
present in the process environment with a non-empty value, `ColorEnabled()` is
false, whatever the terminal probes answer for process stdout. -/
theorem C7_no_color_nonempty (w : World) (v : String)
    (h : w.environ.lookup "NO_COLOR" = some v) (hv : v ≠ "") :
    ColorEnabled (System w).val = false := by
  unfold ColorEnabled
  rw [System_colorEnabled]
  simp [h, hv]

/-- C7 amended, at a concrete input: `NO_COLOR=1` with process stdout a
terminal. -/
theorem C7_no_color_nonempty_witness :
    unixNoColorOne.environ.lookup "NO_COLOR" = some "1" ∧
    (isTerminal unixNoColorOne unixNoColorOne.Stdout).val = true ∧
    ColorEnabled (System unixNoColorOne).val = false :=
  ⟨by decide, by decide, C7_no_color_nonempty unixNoColorOne "1" (by decide) (by decide)⟩

/-- C8: for the value returned by `System()`, `ColorEnabled()` implies that
process stdout, probed on the raw `os.Stdout` file, is a terminal (standard or
Cygwin); and when `NO_COLOR` is absent from the environment `ColorEnabled()`
equals that probe's answer. The answer does not depend on the wrapped writer
`colorable.NewColorable` returns. -/
theorem C8_color_follows_stdout_probe (w : World) :
    (ColorEnabled (System w).val = true → (isTerminal w w.Stdout).val = true) ∧
    (envPresent w "NO_COLOR" = false →
      ColorEnabled (System w).val = (isTerminal w w.Stdout).val) ∧
    (isTerminal w w.Stdout).val = (w.ttyProbe w.Stdout.Fd || w.cygwinProbe w.Stdout.Fd) := by
  refine ⟨?_, ?_, isTerminal_val w w.Stdout⟩
  · intro hc
    unfold ColorEnabled at hc
    rw [System_colorEnabled] at hc
    simp only [Bool.and_eq_true] at hc
    exact hc.2
  · intro habs
    unfold ColorEnabled
    rw [System_colorEnabled]
    unfold envPresent at habs
    cases hl : w.environ.lookup "NO_COLOR" with
    | none => simp
    | some v => simp [hl] at habs

/-- C8 at concrete inputs: a terminal with `NO_COLOR` absent, and a Windows
console whose output is wrapped in a `*colorableWriter`. -/
theorem C8_color_follows_stdout_probe_witness :
    (ColorEnabled (System unixTerminal).val = true ∧
      (isTerminal unixTerminal unixTerminal.Stdout).val = true) ∧
    (envPresent windowsConsole "NO_COLOR" = false ∧
      (System windowsConsole).val.Out = Handle.colorableWriter ∧
      ColorEnabled (System windowsConsole).val =
        (isTerminal windowsConsole windowsConsole.Stdout).val) :=
  ⟨⟨by decide, (C8_color_follows_stdout_probe unixTerminal).1 (by decide)⟩,
   ⟨by decide, by decide, (C8_color_follows_stdout_probe windowsConsole).2.1 (by decide)⟩⟩

/-! ## Permanence of overrides -/

/-- C10: override permanence and independence. For each stream `x`, once its
setter has been called with `b`, after any finite sequence of later calls to
the setters of the other two streams and to any of the queries, the override
of `x` is still set and its query still returns `b`; a later call of the
setter of `x` with `b2` changes the answer to `b2`. No method call clears an
override flag. -/
theorem C10_override_permanent (x : StreamId) (s : IOStreams) (b : Bool)
    (calls : List (World × Op)) (hcalls : ∀ c ∈ calls, c.2.setterOf ≠ some x) (w : World) :
    overrideSet x (run (SetTTY x s b) calls) = true ∧
    (IsTTY w x (run (SetTTY x s b) calls)).val = b ∧
    (∀ b2 : Bool, (IsTTY w x (SetTTY x (run (SetTTY x s b) calls) b2)).val = b2) ∧
    (∀ (s0 : IOStreams) (w0 : World) (op : Op),
      overrideSet x s0 = true → overrideSet x (step w0 s0 op).1 = true) := by
  have inv : ∀ (cs : List (World × Op)) (t : IOStreams),
      (∀ c ∈ cs, c.2.setterOf ≠ some x) → overrideSet x t = true →
      overrideSet x (run t cs) = true ∧ forcedValue x (run t cs) = forcedValue x t := by
    intro cs
    induction cs with
    | nil => intro t _ ht; exact ⟨ht, rfl⟩
    | cons c rest ih =>
      intro t hcs ht
      obtain ⟨w1, op⟩ := c
      have hop : op.setterOf ≠ some x := hcs (w1, op) (List.mem_cons_self _ _)
      have hrest : ∀ c ∈ rest, c.2.setterOf ≠ some x :=
        fun c hc => hcs c (List.mem_cons_of_mem _ hc)
      have := ih (step w1 t op).1 hrest (step_overrideSet x w1 t op ht)
      exact ⟨this.1, this.2.trans (step_forcedValue x w1 t op hop)⟩
  have hset : overrideSet x (SetTTY x s b) = true ∧ forcedValue x (SetTTY x s b) = b := by
    cases x <;> exact ⟨rfl, rfl⟩
  have hrun := inv calls (SetTTY x s b) hcalls hset.1
  refine ⟨hrun.1, ?_, ?_, fun s0 w0 op h0 => step_overrideSet x w0 s0 op h0⟩
  · rw [IsTTY_of_overrideSet w x _ hrun.1]
    exact hrun.2.trans hset.2
  · intro b2
    have h2 : overrideSet x (SetTTY x (run (SetTTY x s b) calls) b2) = true ∧
        forcedValue x (SetTTY x (run (SetTTY x s b) calls) b2) = b2 := by
      cases x <;> exact ⟨rfl, rfl⟩
    rw [IsTTY_of_overrideSet w x _ h2.1]
    exact h2.2

/-- C10 at a concrete input: on a real terminal, stdin is forced to `false`,
then the other setters and all five queries are called; `IsStdinTTY()` still
returns `false` although the probe would answer `true`. -/
theorem C10_override_permanent_witness :
    (IsStdinTTY unixTerminal onProcessStreams).val = true ∧
    (IsTTY unixTerminal StreamId.stdin
      (run (SetTTY StreamId.stdin onProcessStreams false)
        [(unixTerminal, Op.SetStdoutTTY true), (cygwin, Op.IsStdinTTY),
         (unixTerminal, Op.SetStderrTTY true), (unixTerminal, Op.IsStdoutTTY),
         (windowsConsole, Op.IsStderrTTY), (unixTerminal, Op.ColorEnabled),
         (cygwin, Op.TerminalWidth)])).val = false :=
  ⟨by decide,
   (C10_override_permanent StreamId.stdin onProcessStreams false
      [(unixTerminal, Op.SetStdoutTTY true), (cygwin, Op.IsStdinTTY),
       (unixTerminal, Op.SetStderrTTY true), (unixTerminal, Op.IsStdoutTTY),
       (windowsConsole, Op.IsStderrTTY), (unixTerminal, Op.ColorEnabled),
       (cygwin, Op.TerminalWidth)]
      (by
        intro c hc
        simp only [List.mem_cons, List.mem_singleton, List.not_mem_nil, or_false] at hc
        rcases hc with rfl | rfl | rfl | rfl | rfl | rfl | rfl <;> simp [Op.setterOf])
      unixTerminal).2.1⟩

end iostreams
